import Mathlib

/-!
Shallow embedding of the core of the `deca` CHIP-8 interpreter
(`src/lib.rs`, `src/display.rs`), with theorems checking the
natural-language specification against it.

Machine integers are modelled as `Nat` with explicit `% 256` / `% 65536`
where the Rust code wraps.  Rust arrays are modelled as functions with
explicit bounds checks in the access helpers; an out-of-bounds access
yields the `panic` outcome, mirroring a Rust index panic.
-/

namespace Deca

/-- Outcome of running a piece of Rust code: a normal result, or a panic
(out-of-bounds index).  Recoverable `Result::Err` values are modelled
separately, inside the result type `α`. -/
inductive Res (α : Type) : Type where
  | ok : α → Res α
  | panic : Res α
deriving DecidableEq

/-- Is this outcome a panic? -/
def Res.isPanic : {α : Type} → Res α → Bool
  | _, .ok _ => false
  | _, .panic => true

/-- Bitwise complement of a byte: Rust `!b` on a `u8`. -/
def bnot8 (b : Nat) : Nat := 255 ^^^ (b % 256)

/-- Bounds-checked read of the 65536-byte memory array
(`self.memory[idx]`). -/
def memRead (m : Nat → Nat) (idx : Nat) : Res Nat :=
  if idx < 65536 then .ok (m idx) else .panic

/-- Bounds-checked write to the 65536-byte memory array
(`self.memory[idx] = v`). -/
def memWrite (m : Nat → Nat) (idx v : Nat) : Res (Nat → Nat) :=
  if idx < 65536 then .ok (fun j => if j = idx then v else m j) else .panic

/-- Bounds-checked read of a cell of the `[[u8; 128]; 64]` display array
(`self.display[r][c]`). -/
def gridRead (g : Nat → Nat → Nat) (r c : Nat) : Res Nat :=
  if r < 64 ∧ c < 128 then .ok (g r c) else .panic

/-- Bounds-checked write to a cell of the `[[u8; 128]; 64]` display array
(`self.display[r][c] = v`). -/
def gridWrite (g : Nat → Nat → Nat) (r c v : Nat) : Res (Nat → Nat → Nat) :=
  if r < 64 ∧ c < 128 then
    .ok (fun r' c' => if r' = r ∧ c' = c then v else g r' c')
  else .panic

/-- Bounds-checked read-modify-write of a display cell, as in Rust
`self.display[r][c] |= e` or `&= e` (one bounds check covers the
read and the write through the same reference). -/
def gridModify (g : Nat → Nat → Nat) (r c : Nat) (f : Nat → Nat) : Res (Nat → Nat → Nat) :=
  if r < 64 ∧ c < 128 then
    .ok (fun r' c' => if r' = r ∧ c' = c then f (g r c) else g r' c')
  else .panic

/-- The `Display` struct of `src/display.rs`.  The pixel grid
`[[u8; 128]; 64]` is a function from (row, col) to the cell's plane
bitmask; only indices `r < 64, c < 128` correspond to array cells. -/
structure Display : Type where
  display : Nat → Nat → Nat
  dirty : Bool
  clear : Bool
  hires : Bool
  width : Nat
  height : Nat
  active_plane : Nat

/-- `Display::new`. -/
def Display.new : Display :=
  { display := fun _ _ => 0
    dirty := false
    clear := true
    hires := false
    width := 64
    height := 32
    active_plane := 1 }

/-- `Display::clear` (renamed `clearOp`: the `clear` field projection takes
the source name).  The source iterates `*pixel = 0` / `*pixel &= !active_plane`
over every cell of the 64×128 array, then sets `dirty = true` and
`clear = true` unconditionally. -/
def Display.clearOp (d : Display) (all_planes : Bool) : Display :=
  { d with
    display := fun r c =>
      if all_planes then 0 else d.display r c &&& bnot8 d.active_plane
    dirty := true
    clear := true }

/-- One iteration of the first loop body of `Display::scroll_up`:
`display[y-pixels][x] |= display[y][x] & active_plane;
 display[y][x] &= !active_plane`. -/
def scrollUpMove (ap pixels : Nat) (g : Nat → Nat → Nat) (y x : Nat) :
    Res (Nat → Nat → Nat) :=
  match gridRead g y x with
  | .panic => .panic
  | .ok src =>
    match gridModify g (y - pixels) x (fun p => p ||| (src &&& ap)) with
    | .panic => .panic
    | .ok g1 => gridModify g1 y x (fun p => p &&& bnot8 ap)

/-- Run an action over a list of index pairs, threading the grid and
propagating panics (the shape of the nested `for` loops in the scrolls). -/
def foldCells (f : (Nat → Nat → Nat) → Nat → Nat → Res (Nat → Nat → Nat))
    (g : Nat → Nat → Nat) : List (Nat × Nat) → Res (Nat → Nat → Nat)
  | [] => .ok g
  | (y, x) :: rest =>
    match f g y x with
    | .panic => .panic
    | .ok g' => foldCells f g' rest

/-- The index pairs of a row-major double loop `for y in ys, for x in xs`. -/
def cellList (ys xs : List Nat) : List (Nat × Nat) :=
  ys.flatMap (fun y => xs.map (fun x => (y, x)))

/-- `Display::scroll_up`.  Note the second loop iterates
`for x in 0..=self.width` — an inclusive range, so column index `width`
itself is accessed. -/
def Display.scroll_up (d : Display) (pixels : Nat) : Res Display :=
  if ¬ d.clear ∧ pixels > 0 then
    match foldCells (scrollUpMove d.active_plane pixels) d.display
        (cellList (List.range' pixels (d.height - pixels)) (List.range d.width)) with
    | .panic => .panic
    | .ok g1 =>
      match foldCells (fun g y x => gridModify g y x (fun p => p &&& bnot8 d.active_plane)) g1
          (cellList (List.range' (d.height - pixels) pixels) (List.range (d.width + 1))) with
      | .panic => .panic
      | .ok g2 => .ok { d with display := g2, dirty := true }
  else .ok d

/-- Inner column loop of `Display::draw` for one sprite row: clip when
`col + x ≥ width` (a `break`), else XOR the pixel into the active plane,
recording a collision when a lit plane-bit is cleared. -/
def drawRowPixels (width ap : Nat) (y x r : Nat) :
    List Nat → Nat → (Nat → Nat → Nat) → Nat → Res ((Nat → Nat → Nat) × Nat)
  | [], _, g, collision => .ok (g, collision)
  | p :: rest, col, g, collision =>
    if width ≤ col + x then .ok (g, collision)
    else if p = 1 then
      match gridRead g (y + r) (x + col) with
      | .panic => .panic
      | .ok cell =>
        if cell &&& ap = 0 then
          match gridWrite g (y + r) (x + col) (cell ||| ap) with
          | .panic => .panic
          | .ok g' => drawRowPixels width ap y x r rest (col + 1) g' collision
        else
          match gridWrite g (y + r) (x + col) (cell &&& bnot8 ap) with
          | .panic => .panic
          | .ok g' => drawRowPixels width ap y x r rest (col + 1) g' 1
    else drawRowPixels width ap y x r rest (col + 1) g collision

/-- Row loop of `Display::draw`: clip when `row + y ≥ height` (a `break`). -/
def drawRows (height width ap : Nat) (y x : Nat) :
    List (List Nat) → Nat → (Nat → Nat → Nat) → Nat → Res ((Nat → Nat → Nat) × Nat)
  | [], _, g, collision => .ok (g, collision)
  | srow :: rest, r, g, collision =>
    if height ≤ r + y then .ok (g, collision)
    else
      match drawRowPixels width ap y x r srow 0 g collision with
      | .panic => .panic
      | .ok (g', collision') => drawRows height width ap y x rest (r + 1) g' collision'

/-- `Display::draw`.  (`x % width` / `y % height` follow `Nat` semantics
here; all theorems below use the source-reachable dimensions 64×32 or
128×64, where this agrees with Rust's `u8` remainder.) -/
def Display.draw (d : Display) (sprite : List (List Nat)) (x y : Nat) :
    Res (Nat × Display) :=
  let x := x % d.width
  let y := y % d.height
  match drawRows d.height d.width d.active_plane y x sprite 0 d.display 0 with
  | .panic => .panic
  | .ok (g, collision) =>
    .ok (collision, { d with display := g, clear := false, dirty := true })

/-- Modelled from the spec: `octopt::LoResDxy0Behavior`, the configuration
enumeration for DXY0 in lores mode, lives in the external `octopt` crate,
not under `src/`.  The spec (§6) gives the enumeration {None, BigSprite,
TallSprite}, `None` being the absent option. -/
inductive LoResDxy0Behavior : Type where
  | BigSprite : LoResDxy0Behavior
  | TallSprite : LoResDxy0Behavior
deriving DecidableEq

/-- The quirk flags consulted by the instruction arms embedded here
(`octopt::Quirks` has more fields; the others are not read by these arms). -/
structure Quirks : Type where
  shift : Option Bool
  lores_dxy0 : Option LoResDxy0Behavior

/-- The `Chip8` struct of `src/lib.rs`.  `options` is flattened to the
`quirks` record it is read through.  The fixed-size arrays (`stack`,
`memory`, `keyboard`) are functions with bounds-checked access helpers;
`v` and `flags` are indexed by `u4`-valued registers, hence by `Fin 16`. -/
structure Chip8 : Type where
  pc : Nat
  sp : Nat
  stack : Nat → Nat
  memory : Nat → Nat
  i : Nat
  v : Fin 16 → Nat
  flags : Fin 16 → Nat
  delay : Nat
  sound : Nat
  display : Display
  quirks : Quirks
  keyboard : Nat → Bool

/-- Bounds-checked read of the 16-entry call stack (`self.stack[idx]`). -/
def stackRead (st : Nat → Nat) (idx : Nat) : Res Nat :=
  if idx < 16 then .ok (st idx) else .panic

/-- Bounds-checked write to the 16-entry call stack (`self.stack[idx] = v`). -/
def stackWrite (st : Nat → Nat) (idx v : Nat) : Res (Nat → Nat) :=
  if idx < 16 then .ok (fun j => if j = idx then v else st j) else .panic

/-- Bounds-checked read of the 16-entry keyboard array
(`self.keyboard[idx]`). -/
def kbRead (k : Nat → Bool) (idx : Nat) : Res Bool :=
  if idx < 16 then .ok (k idx) else .panic

/-- Write one variable register (`self.v[i] = x`). -/
def vset (v : Fin 16 → Nat) (i : Fin 16) (x : Nat) : Fin 16 → Nat :=
  fun j => if j = i then x else v j

/-- The subset of `decasm::Instruction` covering the arms the claims
concern.  `Call`/`SetIndex` carry their 12-bit address operand, `Draw`
its `u4` row count. -/
inductive Instruction : Type where
  | Return : Instruction
  | Call : Nat → Instruction
  | ShiftLeft : Fin 16 → Fin 16 → Instruction
  | SetIndex : Nat → Instruction
  | Draw : Fin 16 → Fin 16 → Nat → Instruction
  | SkipKey : Fin 16 → Instruction
  | SkipNotKey : Fin 16 → Instruction
  | FontCharacter : Fin 16 → Instruction
  | BigFontCharacter : Fin 16 → Instruction
  | Bcd : Fin 16 → Instruction
  | SetIndexLong : Instruction
deriving DecidableEq

/-- `Chip8::fetch`: read the big-endian opcode at `pc` (second byte at
`pc.wrapping_add(1)`), then `pc ← pc.wrapping_add(2)`. -/
def Chip8.fetch (s : Chip8) : Res (Nat × Chip8) :=
  match memRead s.memory s.pc, memRead s.memory ((s.pc + 1) % 65536) with
  | .ok hi, .ok lo => .ok ((hi <<< 8) ||| lo, { s with pc := (s.pc + 2) % 65536 })
  | _, _ => .panic

/-- The opcode the next `fetch` would return (for stating theorems). -/
def Chip8.opcodeAt (s : Chip8) : Nat :=
  (s.memory s.pc <<< 8) ||| s.memory ((s.pc + 1) % 65536)

/-- Modelled from the spec: the opcode table of the external `decasm`
crate (`Instruction::try_from`) is not under `src/`.  Per the spec's
opcode table (§6), `F000` is the unique encoding of SET_INDEX_LONG.
Only the families needed here are modelled; every other opcode decodes
to `none` (an UnknownOpcode error); the real decoder recognizes more
families, but none of them yields SET_INDEX_LONG. -/
def decodeRaw (opcode : Nat) : Option Instruction :=
  if opcode = 0xF000 then some .SetIndexLong
  else if opcode = 0x00EE then some .Return
  else if 0x2000 ≤ opcode ∧ opcode < 0x3000 then some (.Call (opcode % 0x1000))
  else if 0xA000 ≤ opcode ∧ opcode < 0xB000 then some (.SetIndex (opcode % 0x1000))
  else none

/-- `Chip8::decode`: translate an opcode; for `SetIndexLong` an extra
`fetch` reads the 16-bit immediate (advancing `pc`), yielding `SetIndex`. -/
def Chip8.decode (s : Chip8) (opcode : Nat) : Res (Except String Instruction × Chip8) :=
  match decodeRaw opcode with
  | some Instruction.SetIndexLong =>
    match s.fetch with
    | .panic => .panic
    | .ok (w, s') => .ok (.ok (Instruction.SetIndex w), s')
  | some instruction => .ok (.ok instruction, s)
  | none => .ok (.error ("unknown opcode at PC " ++ toString s.pc), s)

/-- `Chip8::skip`: fetch the next opcode and decode it, swallowing decode
errors; if the decoded instruction equals `SetIndexLong`, fetch once more.
(As in the source, that comparison can never succeed — `decode` turns
`SetIndexLong` into `SetIndex` after fetching its immediate — but the
immediate fetch inside `decode` has already advanced `pc`.) -/
def Chip8.skip (s : Chip8) : Res Chip8 :=
  match s.fetch with
  | .panic => .panic
  | .ok (opcode, s1) =>
    match s1.decode opcode with
    | .panic => .panic
    | .ok (.ok instruction, s2) =>
      if instruction = Instruction.SetIndexLong then
        match s2.fetch with
        | .panic => .panic
        | .ok (_, s3) => .ok s3
      else .ok s2
    | .ok (.error _, s2) => .ok s2

/-- Inner column loop of the sprite materialization in the `Draw` arm:
`row.push((byte << (x % 8)) >> 7)`, loading the next byte when `x == 8`
(`u8` shift-left truncates, hence the `% 256`). -/
def buildRowAux (mem : Nat → Nat) :
    List Nat → Nat → Nat → List Nat → Res (List Nat × Nat)
  | [], _, address, acc => .ok (acc.reverse, address)
  | xi :: rest, byte, address, acc =>
    if xi = 8 then
      let address' := (address + 1) % 65536
      match memRead mem address' with
      | .panic => .panic
      | .ok byte' =>
        buildRowAux mem rest byte' address' ((((byte' <<< (xi % 8)) % 256) >>> 7) :: acc)
    else
      buildRowAux mem rest byte address ((((byte <<< (xi % 8)) % 256) >>> 7) :: acc)

/-- Row loop of the sprite materialization in the `Draw` arm: per row,
load `memory[address]`, run the column loop, then advance the address
cursor (`wrapping_add`). -/
def buildSprite (mem : Nat → Nat) :
    Nat → Nat → Nat → List (List Nat) → Res (List (List Nat) × Nat)
  | 0, _, address, acc => .ok (acc.reverse, address)
  | h + 1, w, address, acc =>
    match memRead mem address with
    | .panic => .panic
    | .ok byte =>
      match buildRowAux mem (List.range w) byte address [] with
      | .panic => .panic
      | .ok (row, a2) => buildSprite mem h w ((a2 + 1) % 65536) (row :: acc)

/-- The display with its `active_plane` field overwritten
(`self.display.active_plane = color` before / after the per-plane draws). -/
def withPlane (d : Display) (p : Nat) : Display := { d with active_plane := p }

/-- One iteration of the `for color in 1..=2` loop of the `Draw` arm:
when the saved `active_plane` mask selects `color`, materialize that
plane's sprite from memory, point the display at plane `color`, draw,
and store the collision flag in VF. -/
def drawPlane (ap : Nat) (x y : Fin 16) (width height : Nat) (color : Nat)
    (address : Nat) (s : Chip8) : Res (Nat × Chip8) :=
  if ap &&& color ≠ 0 then
    match buildSprite s.memory height width address [] with
    | .panic => .panic
    | .ok (sprite, address') =>
      match Display.draw (withPlane s.display color) sprite (s.v x) (s.v y) with
      | .panic => .panic
      | .ok (collision, d') =>
        .ok (address', { s with display := d', v := vset s.v 15 collision })
  else .ok (address, s)

/-- `Chip8::execute` for the embedded instruction arms.  The Rust
signature is `fn execute(&mut self, ..) -> Result<(), String>`: mutations
persist even when an `Err` is returned, so the result pairs the final
state with the `Result`; a `panic` outcome models a Rust panic. -/
def Chip8.execute (s : Chip8) : Instruction → Res (Chip8 × Except String Unit)
  | .Return =>
    if s.sp = 0 then .ok (s, .error "Attempted pop from empty stack")
    else
      match stackRead s.stack s.sp with
      | .panic => .panic
      | .ok top => .ok ({ s with pc := top, sp := s.sp - 1 }, .ok ())
  | .Call nnn =>
    let sp' := s.sp + 1
    if 16 ≤ sp' then .ok ({ s with sp := sp' }, .error "Stack limit exceeded")
    else
      match stackWrite s.stack sp' s.pc with
      | .panic => .panic
      | .ok st => .ok ({ s with sp := sp', stack := st, pc := nnn }, .ok ())
  | .ShiftLeft x y =>
    let operand := if s.quirks.shift = some true then s.v x else s.v y
    .ok ({ s with v := vset (vset s.v 15 (operand &&& 1)) x (operand >>> 1) }, .ok ())
  | .SetIndex nnn => .ok ({ s with i := nnn }, .ok ())
  | .Draw x y n =>
    let dims : Option (Nat × Nat) :=
      if n = 0 then
        if s.display.hires ∨ s.quirks.lores_dxy0 = some .BigSprite then some (16, 16)
        else if s.quirks.lores_dxy0 = some .TallSprite then some (8, 16)
        else none
      else some (8, n)
    match dims with
    | none => .ok (s, .ok ())
    | some (width, height) =>
      let ap := s.display.active_plane
      match drawPlane ap x y width height 1 s.i s with
      | .panic => .panic
      | .ok (a1, s1) =>
        match drawPlane ap x y width height 2 a1 s1 with
        | .panic => .panic
        | .ok (_, s2) =>
          .ok ({ s2 with display := withPlane s2.display ap }, .ok ())
  | .SkipKey x =>
    match kbRead s.keyboard (s.v x) with
    | .panic => .panic
    | .ok pressed =>
      if pressed then
        match s.skip with
        | .panic => .panic
        | .ok s' => .ok (s', .ok ())
      else .ok (s, .ok ())
  | .SkipNotKey x =>
    match kbRead s.keyboard (s.v x) with
    | .panic => .panic
    | .ok pressed =>
      if ¬ pressed then
        match s.skip with
        | .panic => .panic
        | .ok s' => .ok (s', .ok ())
      else .ok (s, .ok ())
  | .FontCharacter x =>
    .ok ({ s with i := 0x50 + (s.v x * 5) % 256 }, .ok ())
  | .BigFontCharacter x =>
    .ok ({ s with i := 0xA0 + (s.v x * 10) % 256 }, .ok ())
  | .Bcd x =>
    let vx := s.v x
    match memWrite s.memory s.i (vx / 100) with
    | .panic => .panic
    | .ok m1 =>
      match memWrite m1 (s.i + 1) ((vx / 10) % 10) with
      | .panic => .panic
      | .ok m2 =>
        match memWrite m2 (s.i + 2) (vx % 10) with
        | .panic => .panic
        | .ok m3 => .ok ({ s with memory := m3 }, .ok ())
  | .SetIndexLong =>
    match s.fetch with
    | .panic => .panic
    | .ok (w, s') => .ok ({ s' with i := w }, .ok ())

/-- Project the final machine state out of an `execute` outcome. -/
def stateOf : Res (Chip8 × Except String Unit) → Option Chip8
  | .ok (s, _) => some s
  | .panic => none

/-- A baseline machine state: zeroed machine, default quirks, `pc = 0x200`. -/
def chip0 : Chip8 :=
  { pc := 0x200
    sp := 0
    stack := fun _ => 0
    memory := fun _ => 0
    i := 0
    v := fun _ => 0
    flags := fun _ => 0
    delay := 0
    sound := 0
    display := Display.new
    quirks := { shift := none, lores_dxy0 := none }
    keyboard := fun _ => false }

/-- Input for the two-plane DRAW scenario: `active_plane = 3`, a plane-1
pixel lit at (0,0), sprite data `0x80 0x00` at `I = 0x300` — the plane-1
sprite hits the lit pixel (collision), the plane-2 sprite is blank. -/
def drawBothPlanesInput : Chip8 := { chip0 with
  i := 0x300
  memory := fun a => if a = 0x300 then 0x80 else 0
  display := { Display.new with
    clear := false
    active_plane := 3
    display := fun r c => if r = 0 ∧ c = 0 then 1 else 0 } }

/-- Input for SHIFT_LEFT: shift quirk on, `V0 = 0x80`. -/
def shiftLeftInput : Chip8 := { chip0 with
  quirks := { chip0.quirks with shift := some true }
  v := vset chip0.v 0 0x80 }

/-- A hires-mode display with content (`clear = false`). -/
def hiresDirty : Display :=
  { Display.new with hires := true, width := 128, height := 64, clear := false }

/-- Input for SKIP_KEY: `V0 = 16`, one past the last keyboard index. -/
def skipKeyInput : Chip8 := { chip0 with v := vset chip0.v 0 16 }

/-- Input for FONT_CHAR / BIG_FONT_CHAR: `V0 = 0x10` (low nibble 0). -/
def fontInput : Chip8 := { chip0 with v := vset chip0.v 0 0x10 }

/-- A lores display whose only lit pixel carries the plane-2 bit, at (0,0). -/
def planeTwoLit : Display := { Display.new with
  clear := false
  display := fun r c => if r = 0 ∧ c = 0 then 2 else 0 }

/-- Input for BCD at the top of memory: `I = 0xFFFF`, `V0 = 123`. -/
def bcdInput : Chip8 := { chip0 with i := 0xFFFF, v := vset chip0.v 0 123 }

/-- Input for the skip lookahead: the opcode at `pc = 0x200` is `0xF000`. -/
def skipLongInput : Chip8 := { chip0 with
  memory := fun a => if a = 0x200 then 0xF0 else 0 }

/-- Input for CALL on a full stack: `sp = 15`. -/
def fullStack : Chip8 := { chip0 with sp := 15 }

/-- Claim C2 (counter-evidence, code bug): the claim says SHIFT_LEFT sets
VF to bit 7 of the operand and Vx to the operand shifted left.  The code's
`ShiftLeft` arm instead computes `VF = operand & 1; Vx = operand >> 1` —
a right shift (the `ShiftLeft` and `ShiftRight` arms are swapped).  With
the shift quirk on and `V0 = 0x80`, the claim predicts `VF = 1, V0 = 0x00`;
the code yields `VF = 0, V0 = 0x40`. -/
theorem shiftLeft_executes_right_shift :
    (stateOf (shiftLeftInput.execute (.ShiftLeft 0 1))).map (fun t => (t.v 15, t.v 0))
      = some (0, 0x40) := rfl

/-- Claim C3 (counter-evidence, code bug): the second loop of
`Display::scroll_up` iterates `for x in 0..=self.width` (inclusive), so
column index `width` itself is accessed.  In hires mode (`width = 128`)
that indexes past the 128-cell row array: scrolling a non-clear hires
display up by 63 (0 < 63 ≤ height) panics. -/
theorem scroll_up_accesses_column_width :
    (hiresDirty.scroll_up 63).isPanic = true := rfl

/-- Claim C4 (counter-evidence, code bug): SKIP_KEY / SKIP_NOT_KEY index
`keyboard[Vx]` without the `& 0xF` mask the claim states, so `Vx = 16`
is an out-of-bounds access (a panic), not a lookup of `keyboard[0]`. -/
theorem skipKey_out_of_bounds_panics :
    (skipKeyInput.execute (.SkipKey 0)).isPanic = true ∧
    (skipKeyInput.execute (.SkipNotKey 0)).isPanic = true := ⟨rfl, rfl⟩

/-- Claim C5 (counter-evidence, code bug): FONT_CHAR computes
`I = 0x50 + (Vx * 5 mod 256)` with no low-nibble mask (the multiply is on
`u8`), and BIG_FONT_CHAR likewise `I = 0xA0 + (Vx * 10 mod 256)`.
At `Vx = 0x10` the claim predicts `I = 0x50` resp. `I = 0xA0`; the code
yields `I = 0xA0` resp. `I = 0x140`. -/
theorem fontChar_ignores_nibble_mask :
    (stateOf (fontInput.execute (.FontCharacter 0))).map Chip8.i = some 0xA0 ∧
    (stateOf (fontInput.execute (.BigFontCharacter 0))).map Chip8.i = some 0x140 :=
  ⟨rfl, rfl⟩

/-- Claim C6 (counter-evidence, code bug): `Display::clear` sets the
`clear` flag to `true` unconditionally.  Clearing only plane 1
(`all_planes = false`, `active_plane = 1`) while a plane-2 pixel is lit
leaves that defined cell nonzero, yet `clear = true` — the claim (and the
flag's own doc comment) require `clear = false` here. -/
theorem clear_flag_true_with_plane2_lit :
    (planeTwoLit.clearOp false).clear = true ∧
    (planeTwoLit.clearOp false).display 0 0 = 2 := ⟨rfl, rfl⟩

/-- Claim C7 (counter-evidence, code bug): the BCD arm indexes
`memory[self.i as usize + 1]` and `+ 2` without wrapping modulo 65536,
so at `I = 0xFFFF` the second write indexes `memory[65536]`, out of the
65536-byte array — a panic, not a wrapped write to `memory[0]`. -/
theorem bcd_at_memory_top_panics :
    (bcdInput.execute (.Bcd 0)).isPanic = true := rfl

/-- Claim C1 (counterexample): with `active_plane = 3`, a DRAW whose
plane-1 pass clears a pixel (collision 1) but whose plane-2 pass draws
nothing (collision 0) finishes with `VF = 0`, even though one plane's
draw cleared a pixel — `VF` is not the OR of the per-plane collisions.
The lit plane-1 pixel at (0,0) is cleared by the draw, yet `VF = 0`. -/
theorem draw_vf_not_or_of_planes :
    drawBothPlanesInput.display.display 0 0 = 1 ∧
    (stateOf (drawBothPlanesInput.execute (.Draw 0 1 1))).map
      (fun t => (t.v 15, t.display.display 0 0)) = some (0, 0) := ⟨rfl, rfl⟩

/-- Claim C1 (amended): for every DRAW with `active_plane = 3` (and a
nonzero row count `n`, so the sprite is 8×n), when both per-plane draws
succeed — plane 1 on the sprite read at `I`, plane 2 on the sprite read
at the following bytes — the instruction succeeds and VF equals the
plane-2 (i.e. last) draw's collision result, not the OR of the two. -/
theorem draw_vf_is_last_plane
    (s : Chip8) (x y : Fin 16) (n : Nat)
    {sp1 sp2 : List (List Nat)} {a1 a2 c1 c2 : Nat} {d1 d2 : Display}
    (hn : n ≠ 0) (hap : s.display.active_plane = 3)
    (h1 : buildSprite s.memory n 8 s.i [] = .ok (sp1, a1))
    (h2 : Display.draw (withPlane s.display 1) sp1 (s.v x) (s.v y) = .ok (c1, d1))
    (h3 : buildSprite s.memory n 8 a1 [] = .ok (sp2, a2))
    (h4 : Display.draw (withPlane d1 2) sp2 (vset s.v 15 c1 x) (vset s.v 15 c1 y)
            = .ok (c2, d2)) :
    ∃ s', s.execute (.Draw x y n) = .ok (s', .ok ()) ∧ s'.v 15 = c2 := by
  have e1 : drawPlane 3 x y 8 n 1 s.i s
      = .ok (a1, { s with display := d1, v := vset s.v 15 c1 }) := by
    simp [drawPlane, h1, h2]
  have e2 : drawPlane 3 x y 8 n 2 a1 { s with display := d1, v := vset s.v 15 c1 }
      = .ok (a2, { s with display := d2, v := vset (vset s.v 15 c1) 15 c2 }) := by
    simp [drawPlane, h3, h4]
  refine ⟨{ s with display := withPlane d2 3, v := vset (vset s.v 15 c1) 15 c2 }, ?_, ?_⟩
  · simp only [Chip8.execute, if_neg hn, hap]
    rw [e1]
    simp only [e2]
  · simp [vset]

/-- Claim C1 witness: at the concrete two-plane input the amended theorem
applies — the plane-1 draw collides (`c1 = 1`), the plane-2 draw does not,
and VF finishes at the last plane's result, `0`. -/
theorem draw_vf_is_last_plane_witness :
    ∃ s', drawBothPlanesInput.execute (.Draw 0 1 1) = .ok (s', .ok ()) ∧ s'.v 15 = 0 :=
  draw_vf_is_last_plane drawBothPlanesInput 0 1 1 (by decide) rfl rfl rfl rfl rfl

/-- Every remainder modulo 65536 is below 65536 (the memory size). -/
theorem mod65536_lt (a : Nat) : a % 65536 < 65536 := Nat.mod_lt _ (by norm_num)

/-- Evaluation of `Chip8::fetch` when `pc` is in range: it returns the
big-endian opcode at `pc` and advances `pc` by 2 (wrapping). -/
theorem fetch_eq (s : Chip8) (h : s.pc < 65536) :
    s.fetch = .ok (s.opcodeAt, { s with pc := (s.pc + 2) % 65536 }) := by
  simp [Chip8.fetch, memRead, Chip8.opcodeAt, h, mod65536_lt]

/-- In the modelled decoder, `SetIndexLong` only arises from opcode
`0xF000` (per the spec's opcode table, its unique encoding). -/
theorem decodeRaw_eq_setIndexLong (op : Nat)
    (h : decodeRaw op = some Instruction.SetIndexLong) : op = 0xF000 := by
  by_contra hne
  simp only [decodeRaw] at h
  split at h
  · omega
  · split at h
    · simp at h
    · split at h
      · simp at h
      · split at h
        · simp at h
        · simp at h

/-- Claim C8: a firing skip advances `pc` past exactly one instruction:
by 2 bytes, and by 4 bytes when the next opcode is `0xF000` (whose decode
fetches the long immediate); a next opcode that fails to decode does not
abort the skip, and `pc` still advances by 2. -/
theorem skip_advances_past_next_instruction (s : Chip8) (h : s.pc < 65536) :
    s.skip = .ok { s with
      pc := (s.pc + (if s.opcodeAt = 0xF000 then 4 else 2)) % 65536 } := by
  by_cases hop : s.opcodeAt = 0xF000
  · rw [Chip8.skip, fetch_eq s h]
    simp only [Chip8.decode, hop]
    norm_num [decodeRaw]
    rw [fetch_eq _ (mod65536_lt _)]
    simp [hop, Chip8.mk.injEq]
  · rw [Chip8.skip, fetch_eq s h]
    simp only [Chip8.decode]
    rcases hdr : decodeRaw s.opcodeAt with _ | instr
    · simp [hop]
    · have hne : instr ≠ Instruction.SetIndexLong := by
        intro he
        exact hop (decodeRaw_eq_setIndexLong _ (he ▸ hdr))
      rcases instr with _ | _ | _ | _ | _ | _ | _ | _ | _ | _ | _ <;>
        simp [hop, hdr] at hne ⊢

/-- Claim C8 witness: at `pc = 0x200` with opcode `0xF000` there, the
skip advances `pc` by 4, to `0x204`. -/
theorem skip_advances_witness :
    skipLongInput.pc < 65536 ∧
    skipLongInput.skip = .ok { skipLongInput with
      pc := (skipLongInput.pc + (if skipLongInput.opcodeAt = 0xF000 then 4 else 2)) % 65536 } :=
  ⟨by decide, skip_advances_past_next_instruction skipLongInput (by decide)⟩

/-- Claim C9: from any state with `sp ≤ 14`, CALL NNN followed
immediately by RETURN succeeds, restores `pc` to its pre-CALL value (the
address of the instruction after the CALL, since `execute` receives the
post-fetch state) and leaves `sp` unchanged. -/
theorem call_then_return_restores (s : Chip8) (nnn : Nat) (h : s.sp ≤ 14) :
    ∃ s1 s2,
      s.execute (.Call nnn) = .ok (s1, .ok ()) ∧
      s1.execute .Return = .ok (s2, .ok ()) ∧
      s2.pc = s.pc ∧ s2.sp = s.sp := by
  have h16 : ¬ (16 ≤ s.sp + 1) := by omega
  have hlt : s.sp + 1 < 16 := by omega
  refine ⟨{ s with sp := s.sp + 1, pc := nnn, stack := fun j => if j = s.sp + 1 then s.pc else s.stack j }, { s with stack := fun j => if j = s.sp + 1 then s.pc else s.stack j }, ?_, ?_, rfl, rfl⟩
  · simp [Chip8.execute, stackWrite, h16, hlt]
  · simp [Chip8.execute, stackRead, hlt]

/-- Claim C9 witness: from the baseline state (`sp = 0`), CALL 0x400 then
RETURN restores `pc` and `sp`. -/
theorem call_then_return_witness :
    chip0.sp ≤ 14 ∧
    ∃ s1 s2,
      chip0.execute (.Call 0x400) = .ok (s1, .ok ()) ∧
      s1.execute .Return = .ok (s2, .ok ()) ∧
      s2.pc = chip0.pc ∧ s2.sp = chip0.sp :=
  ⟨by decide, call_then_return_restores chip0 0x400 (by decide)⟩

/-- Claim C10: CALL on a full stack (`sp = 15`) returns the
"Stack limit exceeded" error with `sp` already incremented to 16 and `pc`
and the stack untouched; executing RETURN from that post-error state
reads stack index 16, out of the 16-entry stack array — a panic. -/
theorem call_overflow_increments_sp (s : Chip8) (nnn : Nat) (h : s.sp = 15) :
    s.execute (.Call nnn) = .ok ({ s with sp := 16 }, .error "Stack limit exceeded") ∧
    Chip8.execute { s with sp := 16 } .Return = .panic := by
  constructor
  · simp [Chip8.execute, h]
  · simp [Chip8.execute, stackRead]

/-- Claim C10 witness: the concrete full-stack state exhibits the failed
CALL with `sp = 16` and the out-of-bounds RETURN. -/
theorem call_overflow_witness :
    fullStack.sp = 15 ∧
    (fullStack.execute (.Call 0x400) = .ok ({ fullStack with sp := 16 },
        .error "Stack limit exceeded") ∧
     Chip8.execute { fullStack with sp := 16 } .Return = .panic) :=
  ⟨rfl, call_overflow_increments_sp fullStack 0x400 rfl⟩

end Deca
